import Mathlib

/-!
A verification model of the snapclient iOS bridge (snapclient_bridge.cpp)
and the iOS audio player (ios_player.cpp).

The bridge exposes a plain-C API over an internal `SnapClient` struct; the
player owns the AudioQueue render callback.  Machine state is modelled with
explicit records, the C null handle with `Option`, and the race-relevant
inputs of the render callback (the snapshotted generation, the device sample
time, the pull result, the tick clock) are passed as explicit arguments.
-/

/- ── Bridge data model (snapclient_bridge.cpp) ─────────────────────── -/

/-- Connection states of the bridge (SnapClientState enum). -/
inductive SnapClientState
  | disconnected
  | connecting
  | connected
  | playing
deriving DecidableEq, Repr

/-- The internal SnapClient struct of snapclient_bridge.cpp.  Owned pointers
(controller, io_context, work_guard) and the thread handle are modelled by
presence booleans; registered callbacks by a presence boolean. -/
structure BridgeClient where
  state : SnapClientState
  host : String
  port : Int
  volume : Int
  muted : Bool
  latency_ms : Int
  name : String
  instanceId : Int
  controller : Bool
  io_context : Bool
  work_guard : Bool
  io_thread : Bool
  destroying : Bool
  state_cb : Bool
deriving DecidableEq, Repr

/-- A freshly allocated SnapClient (field initialisers of the struct). -/
def createdClient : BridgeClient where
  state := SnapClientState.disconnected
  host := ""
  port := 1704
  volume := 100
  muted := false
  latency_ms := 0
  name := "SnapForge iOS"
  instanceId := 1
  controller := false
  io_context := false
  work_guard := false
  io_thread := false
  destroying := false
  state_cb := false

/-- notify_state: store the new state, then fire the state callback through a
CallbackGuard.  The guard refuses once `destroying` is set; the callback fires
only when one is registered.  Returns the updated client and the list of
states delivered to the callback. -/
def notify_state (c : BridgeClient) (ns : SnapClientState) :
    BridgeClient × List SnapClientState :=
  let c1 := { c with state := ns }
  if c1.destroying then (c1, [])
  else if c1.state_cb then (c1, [ns]) else (c1, [])

/-- Result of snapclient_start: the (possibly updated) client, the state
callbacks delivered, and the returned bool. -/
structure StartResult where
  client : Option BridgeClient
  events : List SnapClientState
  ok : Bool
deriving DecidableEq, Repr

/-- snapclient_start.  `host = none` models a NULL host pointer;
`controllerOk` models whether controller construction and start throw. -/
def snapclient_start (client : Option BridgeClient) (host : Option String)
    (port : Int) (controllerOk : Bool) : StartResult :=
  match client, host with
  | none, _ => ⟨none, [], false⟩
  | some c, none => ⟨some c, [], false⟩
  | some c, some h =>
    if c.state = SnapClientState.disconnected then
      let c1 := { c with host := h, port := port }
      let r1 := notify_state c1 SnapClientState.connecting
      let c2 := { r1.1 with io_context := true, work_guard := true }
      if controllerOk then
        let c3 := { c2 with controller := true, io_thread := true }
        let r2 := notify_state c3 SnapClientState.connected
        ⟨some r2.1, r1.2 ++ r2.2, true⟩
      else
        let c3 := { c2 with controller := false, work_guard := false,
                            io_context := false }
        let r2 := notify_state c3 SnapClientState.disconnected
        ⟨some r2.1, r1.2 ++ r2.2, false⟩
    else ⟨some c, [], false⟩

/-- snapclient_stop.  `threadNotify` models whether the joined io thread still
runs its exit hook (which notifies Disconnected when it observes a state other
than Disconnected) during the join. -/
def snapclient_stop (client : Option BridgeClient) (threadNotify : Bool) :
    Option BridgeClient × List SnapClientState :=
  match client with
  | none => (none, [])
  | some c =>
    if c.state = SnapClientState.disconnected then (some c, [])
    else
      let c1 := { c with work_guard := false }
      let r1 :=
        if c1.io_thread && threadNotify then
          notify_state c1 SnapClientState.disconnected
        else (c1, [])
      let c2 := { r1.1 with io_thread := false, controller := false,
                            io_context := false }
      let r2 := notify_state c2 SnapClientState.disconnected
      (some r2.1, r1.2 ++ r2.2)

/-- The io_context thread exit hook (lambda in snapclient_start): when the
run loop returns and the state is not Disconnected, notify Disconnected.
The thread stays joinable. -/
def ioThreadExit (c : BridgeClient) : BridgeClient × List SnapClientState :=
  if c.state = SnapClientState.disconnected then (c, [])
  else notify_state c SnapClientState.disconnected

/-- snapclient_is_connected. -/
def snapclient_is_connected (client : Option BridgeClient) : Bool :=
  match client with
  | none => false
  | some c =>
    c.state = SnapClientState.connected || c.state = SnapClientState.playing

/-- snapclient_set_volume: clamp to [0, 100] and cache. -/
def snapclient_set_volume (client : Option BridgeClient) (percent : Int) :
    Option BridgeClient :=
  match client with
  | none => none
  | some c =>
    let p1 := if percent < 0 then 0 else percent
    let p2 := if p1 > 100 then 100 else p1
    some { c with volume := p2 }

/-- snapclient_get_volume. -/
def snapclient_get_volume (client : Option BridgeClient) : Int :=
  match client with
  | none => 0
  | some c => c.volume

/-- snapclient_set_muted. -/
def snapclient_set_muted (client : Option BridgeClient) (m : Bool) :
    Option BridgeClient :=
  match client with
  | none => none
  | some c => some { c with muted := m }

/-- snapclient_get_muted. -/
def snapclient_get_muted (client : Option BridgeClient) : Bool :=
  match client with
  | none => false
  | some c => c.muted

/-- snapclient_set_latency. -/
def snapclient_set_latency (client : Option BridgeClient) (ms : Int) :
    Option BridgeClient :=
  match client with
  | none => none
  | some c => some { c with latency_ms := ms }

/-- snapclient_get_latency. -/
def snapclient_get_latency (client : Option BridgeClient) : Int :=
  match client with
  | none => 0
  | some c => c.latency_ms

/-- snapclient_set_name (NULL name is also a no-op). -/
def snapclient_set_name (client : Option BridgeClient) (n : Option String) :
    Option BridgeClient :=
  match client, n with
  | none, _ => none
  | some c, none => some c
  | some c, some s => some { c with name := s }

/-- snapclient_set_instance. -/
def snapclient_set_instance (client : Option BridgeClient) (i : Int) :
    Option BridgeClient :=
  match client with
  | none => none
  | some c => some { c with instanceId := i }

/-- snapclient_get_state. -/
def snapclient_get_state (client : Option BridgeClient) : SnapClientState :=
  match client with
  | none => SnapClientState.disconnected
  | some c => c.state

/-- snapclient_set_state_callback: rejected once destroy has begun. -/
def snapclient_set_state_callback (client : Option BridgeClient) (cb : Bool) :
    Option BridgeClient :=
  match client with
  | none => none
  | some c => if c.destroying then some c else some { c with state_cb := cb }

/-- snapclient_begin_destroy: synchronously set the destroying flag. -/
def snapclient_begin_destroy (client : Option BridgeClient) :
    Option BridgeClient :=
  match client with
  | none => none
  | some c => some { c with destroying := true }

/-- snapclient_destroy: set destroying, wait for callbacks (bounded), stop,
delete.  Deletion is modelled by returning `none`. -/
def snapclient_destroy (client : Option BridgeClient) (threadNotify : Bool) :
    Option BridgeClient × List SnapClientState :=
  match client with
  | none => (none, [])
  | some c =>
    let c1 := { c with destroying := true }
    let r := snapclient_stop (some c1) threadNotify
    (none, r.2)

/- ── Global pause flag (g_ios_player_paused) and pause API ─────────── -/

/-- Process-wide state shared by the bridge pause API: the single global
pause flag `player::g_ios_player_paused`. -/
structure BridgeWorld where
  g_ios_player_paused : Bool
deriving DecidableEq, Repr

/-- snapclient_pause: null check, then store true into the global flag. -/
def snapclient_pause (client : Option BridgeClient) (w : BridgeWorld) :
    BridgeWorld :=
  match client with
  | none => w
  | some _ => { w with g_ios_player_paused := true }

/-- snapclient_resume: null check, then store false into the global flag. -/
def snapclient_resume (client : Option BridgeClient) (w : BridgeWorld) :
    BridgeWorld :=
  match client with
  | none => w
  | some _ => { w with g_ios_player_paused := false }

/-- snapclient_is_paused: ignores the handle, reads the global flag. -/
def snapclient_is_paused (client : Option BridgeClient) (w : BridgeWorld) :
    Bool :=
  w.g_ios_player_paused

/- ── iOS player (ios_player.cpp) ───────────────────────────────────── -/

/-- NUM_BUFFERS from ios_player.cpp. -/
def NUM_BUFFERS : Nat := 4

/-- IOSPlayer state relevant to the render callback and teardown.  Handles
(queue_, timeLine_, workerRunLoop_) are modelled by presence booleans; the
global pause flag appears as the value read by the callback. -/
structure IOSPlayerState where
  g_paused : Bool
  shutdownRequested : Bool
  callbackGeneration : Nat
  queue : Bool
  timeLine : Bool
  frames : Nat
  ms : Nat
  rate : Nat
  lastChunkTick : Nat
  needsReinit : Bool
  workerRunLoop : Bool
deriving DecidableEq, Repr

/-- Observable effects of one playerCallback invocation. -/
structure CallbackResult where
  enqueued : Bool
  silence : Bool
  wokeRunLoop : Bool
  delayMs : Option Nat
  volumeAdjusted : Bool
deriving DecidableEq, Repr

/-- A callback invocation that produced no effect at all. -/
def noEffect : CallbackResult where
  enqueued := false
  silence := false
  wokeRunLoop := false
  delayMs := none
  volumeAdjusted := false

/-- IOSPlayer::playerCallback.  `myGen` is the generation snapshotted at
entry (passed explicitly so a delayed invocation against a superseded
generation can be expressed), `sampleTime` the device playback position
returned by AudioQueueGetCurrentTime, `pullSuccess` whether
getPlayerChunkOrSilence returned real data, and `now` the current tick. -/
def playerCallback (s : IOSPlayerState) (myGen : Nat) (sampleTime : Nat)
    (pullSuccess : Bool) (now : Nat) : IOSPlayerState × CallbackResult :=
  if s.g_paused then
    (s, { enqueued := true, silence := true, wokeRunLoop := false,
          delayMs := none, volumeAdjusted := false })
  else if s.shutdownRequested then
    ({ s with needsReinit := true },
     { enqueued := false, silence := false, wokeRunLoop := s.workerRunLoop,
       delayMs := none, volumeAdjusted := false })
  else if myGen ≠ s.callbackGeneration then
    (s, noEffect)
  else
    let bufferedMs :=
      (if s.timeLine then
        ((s.frames - sampleTime % s.frames) % s.frames) * 1000 / s.rate
          + s.ms * (NUM_BUFFERS - 1)
      else s.ms * (NUM_BUFFERS - 1)) + 15
    if pullSuccess then
      ({ s with lastChunkTick := now },
       { enqueued := true, silence := false, wokeRunLoop := false,
         delayMs := some bufferedMs, volumeAdjusted := true })
    else
      if now - s.lastChunkTick > 5000 then
        ({ s with needsReinit := true },
         { enqueued := false, silence := false,
           wokeRunLoop := s.workerRunLoop, delayMs := some bufferedMs,
           volumeAdjusted := false })
      else
        (s, { enqueued := true, silence := true, wokeRunLoop := false,
              delayMs := some bufferedMs, volumeAdjusted := false })

/-- IOSPlayer::cleanupAudioQueue: bump the generation first, then (when a
queue exists) stop it, dispose the timeline and the queue. -/
def cleanupAudioQueue (s : IOSPlayerState) : IOSPlayerState :=
  let s1 := { s with callbackGeneration := s.callbackGeneration + 1 }
  if s1.queue then { s1 with queue := false, timeLine := false }
  else s1

/- ── CallbackGuard as a labeled transition system ──────────────────── -/

/-- Program counter of one thread running the guarded callback path:
idle (before the guard constructor), entered (incremented, before the
destroying re-check), body (guard acquired, callback body running),
done (guard destroyed, or entry refused). -/
inductive TPC
  | idle
  | entered
  | body
  | done
deriving DecidableEq, Repr

/-- Guard system state for `n` threads: the client's destroying flag and
callbacksInFlight counter, the count of callback bodies that ever started,
whether callbacksDone was ever notified, and each thread's position. -/
structure GSys (n : Nat) where
  destroying : Bool
  inFlight : Int
  executed : Nat
  signaled : Bool
  pcs : Fin n → TPC

/-- Initial guard system: nothing destroying, counter zero, all threads
before their guard entry. -/
def initSys (n : Nat) : GSys n where
  destroying := false
  inFlight := 0
  executed := 0
  signaled := false
  pcs := fun _ => TPC.idle

/-- snapclient_begin_destroy / destroy phase 1: store destroying := true. -/
def destroyFn {n : Nat} (s : GSys n) : GSys n :=
  { s with destroying := true }

/-- Guard constructor, first load: destroying observed true, entry refused
without touching the counter. -/
def checkFailFn {n : Nat} (s : GSys n) (i : Fin n) : GSys n :=
  { s with pcs := Function.update s.pcs i TPC.done }

/-- Guard constructor: destroying observed false, fetch_add on the counter. -/
def incFn {n : Nat} (s : GSys n) (i : Fin n) : GSys n :=
  { s with pcs := Function.update s.pcs i TPC.entered,
           inFlight := s.inFlight + 1 }

/-- Guard constructor, re-check: destroying became true, fetch_sub back and
notify_all, entry refused. -/
def rollbackFn {n : Nat} (s : GSys n) (i : Fin n) : GSys n :=
  { s with pcs := Function.update s.pcs i TPC.done,
           inFlight := s.inFlight - 1, signaled := true }

/-- Guard constructor, re-check: destroying still false, guard valid, the
callback body starts. -/
def acquireFn {n : Nat} (s : GSys n) (i : Fin n) : GSys n :=
  { s with pcs := Function.update s.pcs i TPC.body,
           executed := s.executed + 1 }

/-- Guard destructor of a valid guard: fetch_sub; when the previous value
was 1 (counter reached zero), notify_all. -/
def guardExitFn {n : Nat} (s : GSys n) (i : Fin n) : GSys n :=
  { s with pcs := Function.update s.pcs i TPC.done,
           inFlight := s.inFlight - 1,
           signaled := if s.inFlight = 1 then true else s.signaled }

/-- One atomic step of the guard system: a destroy-flag store, or one thread
advancing through the guard path. -/
inductive GStep {n : Nat} : GSys n → GSys n → Prop
  | destroy (s : GSys n) : GStep s (destroyFn s)
  | checkFail (s : GSys n) (i : Fin n) :
      s.pcs i = TPC.idle → s.destroying = true → GStep s (checkFailFn s i)
  | inc (s : GSys n) (i : Fin n) :
      s.pcs i = TPC.idle → s.destroying = false → GStep s (incFn s i)
  | rollback (s : GSys n) (i : Fin n) :
      s.pcs i = TPC.entered → s.destroying = true → GStep s (rollbackFn s i)
  | acquire (s : GSys n) (i : Fin n) :
      s.pcs i = TPC.entered → s.destroying = false → GStep s (acquireFn s i)
  | guardExit (s : GSys n) (i : Fin n) :
      s.pcs i = TPC.body → GStep s (guardExitFn s i)

/-- Zero or more guard-system steps. -/
def GReach {n : Nat} : GSys n → GSys n → Prop :=
  Relation.ReflTransGen GStep

/-- Contribution of one thread position to callbacksInFlight: one between the
increment and the matching decrement, zero elsewhere. -/
def activeWeight : TPC → Int
  | TPC.entered => 1
  | TPC.body => 1
  | TPC.idle => 0
  | TPC.done => 0

/-- Number of threads currently holding an increment of the counter. -/
def activeCount {n : Nat} (s : GSys n) : Int :=
  Finset.sum Finset.univ fun i => activeWeight (s.pcs i)

/- ── Guard lemmas ──────────────────────────────────────────────────── -/

/-- The destroying flag is never cleared: every guard-system step preserves
destroying = true. -/
lemma GStep.destroying_mono {n : Nat} {s s2 : GSys n} (h : GStep s s2)
    (hd : s.destroying = true) : s2.destroying = true := by
  cases h <;> first
    | exact hd
    | simp [destroyFn]

/-- Once the destroying flag is set, a thread still before its guard entry
never reaches the callback body: along every execution it stays idle or ends
done, and the flag stays set. -/
lemma post_destroy_no_body {n : Nat} {s s2 : GSys n} {i : Fin n}
    (hreach : GReach s s2) (hd : s.destroying = true)
    (hi : s.pcs i = TPC.idle) :
    s2.destroying = true ∧ (s2.pcs i = TPC.idle ∨ s2.pcs i = TPC.done) := by
  unfold GReach at hreach
  induction hreach with
  | refl => exact ⟨hd, Or.inl hi⟩
  | tail hab hbc ih =>
    obtain ⟨hdb, hpb⟩ := ih
    refine ⟨GStep.destroying_mono hbc hdb, ?_⟩
    cases hbc with
    | destroy => exact hpb
    | checkFail j hj hjd =>
      by_cases hij : i = j
      · subst hij; right; simp [checkFailFn]
      · simpa [checkFailFn, Function.update_apply, hij] using hpb
    | inc j hj hjd => rw [hdb] at hjd; cases hjd
    | rollback j hj hjd =>
      by_cases hij : i = j
      · subst hij; rcases hpb with h | h <;> rw [hj] at h <;> cases h
      · simpa [rollbackFn, Function.update_apply, hij] using hpb
    | acquire j hj hjd => rw [hdb] at hjd; cases hjd
    | guardExit j hj =>
      by_cases hij : i = j
      · subst hij; rcases hpb with h | h <;> rw [hj] at h <;> cases h
      · simpa [guardExitFn, Function.update_apply, hij] using hpb

/-- Every thread position contributes a nonnegative amount to the counter. -/
lemma activeWeight_nonneg (pc : TPC) : 0 ≤ activeWeight pc := by
  cases pc <;> simp [activeWeight]

/-- Updating one thread position changes the weighted sum by the weight
difference at that position. -/
lemma sum_activeWeight_update {n : Nat} (f : Fin n → TPC) (i : Fin n)
    (pc : TPC) :
    (Finset.sum Finset.univ fun j => activeWeight (Function.update f i pc j))
      = (Finset.sum Finset.univ fun j => activeWeight (f j))
        - activeWeight (f i) + activeWeight pc := by
  have hfun : (fun j => activeWeight (Function.update f i pc j))
      = Function.update (fun j => activeWeight (f j)) i (activeWeight pc) := by
    funext j
    by_cases h : j = i
    · subst h; simp
    · simp [Function.update_apply, h]
  rw [hfun, Finset.sum_update_of_mem (Finset.mem_univ i),
    Finset.sum_eq_add_sum_diff_singleton (Finset.mem_univ i)
      fun j => activeWeight (f j)]
  omega

/-- One guard-system step preserves the balance invariant: callbacksInFlight
equals the number of threads holding an increment. -/
lemma step_balance {n : Nat} {s s2 : GSys n} (h : GStep s s2)
    (hinv : s.inFlight = activeCount s) : s2.inFlight = activeCount s2 := by
  cases h with
  | destroy => exact hinv
  | checkFail j hj hjd =>
    show s.inFlight = activeCount (checkFailFn s j)
    unfold activeCount checkFailFn at *
    rw [sum_activeWeight_update, hj] at *
    simp only [activeWeight] at *
    omega
  | inc j hj hjd =>
    show s.inFlight + 1 = activeCount (incFn s j)
    unfold activeCount incFn at *
    rw [sum_activeWeight_update, hj] at *
    simp only [activeWeight] at *
    omega
  | rollback j hj hjd =>
    show s.inFlight - 1 = activeCount (rollbackFn s j)
    unfold activeCount rollbackFn at *
    rw [sum_activeWeight_update, hj] at *
    simp only [activeWeight] at *
    omega
  | acquire j hj hjd =>
    show s.inFlight = activeCount (acquireFn s j)
    unfold activeCount acquireFn at *
    rw [sum_activeWeight_update, hj] at *
    simp only [activeWeight] at *
    omega
  | guardExit j hj =>
    show s.inFlight - 1 = activeCount (guardExitFn s j)
    unfold activeCount guardExitFn at *
    rw [sum_activeWeight_update, hj] at *
    simp only [activeWeight] at *
    omega

/-- The balance invariant holds in every state reachable from the initial
guard system. -/
lemma reach_balance {n : Nat} {s : GSys n} (h : GReach (initSys n) s) :
    s.inFlight = activeCount s := by
  unfold GReach at h
  induction h with
  | refl => simp [initSys, activeCount, activeWeight]
  | tail hab hbc ih => exact step_balance hbc ih

/- ── C1 and C2 ─────────────────────────────────────────────────────── -/

/-- C1: post-destroy silence.  Once the destroying flag has been set
(snapclient_begin_destroy), a thread that has not yet begun its guard entry
can never reach the callback body in any subsequent execution — every later
guard construction reports not acquired — and on the bridge, notify_state on
a client whose destroying flag is set delivers no state callback. -/
theorem C1_post_destroy_silence :
    (∀ (n : Nat) (s s2 : GSys n) (i : Fin n), s.destroying = true →
      s.pcs i = TPC.idle → GReach s s2 →
      s2.pcs i = TPC.idle ∨ s2.pcs i = TPC.done) ∧
    (∀ (c : BridgeClient) (ns : SnapClientState), c.destroying = true →
      (notify_state c ns).2 = []) := by
  constructor
  · intro n s s2 i hd hi hr
    exact (post_destroy_no_body hr hd hi).2
  · intro c ns hd
    simp [notify_state, hd]

/-- The guard system immediately after snapclient_begin_destroy, with one
thread yet to attempt its callback. -/
def destroyedSys : GSys 1 := destroyFn (initSys 1)

/-- A client on which destruction has begun and a state callback is
registered. -/
def destroyingClient : BridgeClient :=
  { createdClient with destroying := true, state_cb := true }

/-- Witness for C1 at a concrete destroyed system and client. -/
theorem C1_post_destroy_silence_witness :
    (destroyedSys.pcs 0 = TPC.idle ∨ destroyedSys.pcs 0 = TPC.done) ∧
    (notify_state destroyingClient SnapClientState.connected).2 = [] :=
  ⟨C1_post_destroy_silence.1 1 destroyedSys destroyedSys 0 rfl rfl
      Relation.ReflTransGen.refl,
   C1_post_destroy_silence.2 destroyingClient SnapClientState.connected rfl⟩

/-- C2: guard counter balance.  In every state reachable from the initial
guard system, callbacksInFlight is nonnegative and equals the number of
threads currently holding an increment (so every acquired entry, and every
rolled-back entry, is matched by exactly one decrement); once every thread
is done the counter is exactly zero; and a guard destructor that brings the
counter from one to zero raises the completion signal. -/
theorem C2_guard_counter_balance {n : Nat} (s : GSys n)
    (h : GReach (initSys n) s) :
    0 ≤ s.inFlight ∧
    s.inFlight = activeCount s ∧
    ((∀ i, s.pcs i = TPC.done) → s.inFlight = 0) ∧
    (∀ i : Fin n, s.pcs i = TPC.body → s.inFlight = 1 →
      (guardExitFn s i).inFlight = 0 ∧ (guardExitFn s i).signaled = true) := by
  have hinv := reach_balance h
  refine ⟨?_, hinv, ?_, ?_⟩
  · rw [hinv]
    exact Finset.sum_nonneg fun j _ => activeWeight_nonneg (s.pcs j)
  · intro hall
    rw [hinv]
    exact Finset.sum_eq_zero fun j _ => by rw [hall j]; rfl
  · intro i hb h1
    constructor
    · show s.inFlight - 1 = 0
      omega
    · show (if s.inFlight = 1 then true else s.signaled) = true
      rw [if_pos h1]

/-- Guard system after one thread has incremented the counter. -/
def c2sysA : GSys 1 := incFn (initSys 1) 0

/-- Guard system after that thread acquired the guard (body running). -/
def c2sysB : GSys 1 := acquireFn c2sysA 0

/-- Witness for C2 at a concrete reachable state with one running body. -/
theorem C2_guard_counter_balance_witness :
    0 ≤ c2sysB.inFlight ∧ c2sysB.inFlight = activeCount c2sysB ∧
    (guardExitFn c2sysB 0).inFlight = 0 ∧
    (guardExitFn c2sysB 0).signaled = true := by
  have h := C2_guard_counter_balance c2sysB
    (Relation.ReflTransGen.tail
      (Relation.ReflTransGen.single (GStep.inc (initSys 1) 0 rfl rfl))
      (GStep.acquire c2sysA 0 (by decide) rfl))
  exact ⟨h.1, h.2.1, (h.2.2.2 0 (by decide) (by decide)).1,
    (h.2.2.2 0 (by decide) (by decide)).2⟩

/- ── C5, C7, C9, C10 ───────────────────────────────────────────────── -/

/-- C5: snapclient_start on a client whose state is not Disconnected returns
false, fires no callback and leaves every field of the client unchanged;
start can return true only from the Disconnected state. -/
theorem C5_start_precondition (c : BridgeClient) (h : Option String)
    (p : Int) (ok : Bool) :
    (c.state ≠ SnapClientState.disconnected →
      snapclient_start (some c) h p ok = ⟨some c, [], false⟩) ∧
    ((snapclient_start (some c) h p ok).ok = true →
      c.state = SnapClientState.disconnected) := by
  constructor
  · intro hne
    cases h with
    | none => rfl
    | some hs => simp [snapclient_start, hne]
  · intro hok
    by_contra hne
    cases h with
    | none => simp [snapclient_start] at hok
    | some hs => simp [snapclient_start, hne] at hok

/-- A client in the Connected state. -/
def connectedClient : BridgeClient :=
  { createdClient with state := SnapClientState.connected, controller := true,
                       io_context := true, work_guard := true,
                       io_thread := true }

/-- Witness for C5: start on a connected client is rejected unchanged. -/
theorem C5_start_precondition_witness :
    snapclient_start (some connectedClient) (some "10.0.0.2") 1704 true
      = ⟨some connectedClient, [], false⟩ :=
  (C5_start_precondition connectedClient (some "10.0.0.2") 1704 true).1
    (by decide)

/-- snapclient_set_volume stores exactly the clamp of the request. -/
lemma set_volume_eq (c : BridgeClient) (p : Int) :
    snapclient_set_volume (some c) p
      = some { c with volume := min 100 (max 0 p) } := by
  have hp : (if (if p < 0 then (0 : Int) else p) > 100 then (100 : Int)
      else if p < 0 then 0 else p) = min 100 (max 0 p) := by
    simp only [min_def, max_def]
    split_ifs <;> omega
  simp only [snapclient_set_volume]
  rw [hp]

/-- C7: volume clamp round-trip.  set_volume followed by get_volume returns
min(100, max(0, percent)); only the volume field changes; in particular
150 reads back as 100 and -5 as 0. -/
theorem C7_volume_clamp_round_trip (c : BridgeClient) (percent : Int) :
    snapclient_set_volume (some c) percent
        = some { c with volume := min 100 (max 0 percent) } ∧
    snapclient_get_volume (snapclient_set_volume (some c) percent)
        = min 100 (max 0 percent) ∧
    snapclient_get_volume (snapclient_set_volume (some c) 150) = 100 ∧
    snapclient_get_volume (snapclient_set_volume (some c) (-5)) = 0 := by
  refine ⟨set_volume_eq c percent, ?_, ?_, ?_⟩
  · rw [set_volume_eq]
    rfl
  · rw [set_volume_eq]
    norm_num [snapclient_get_volume]
  · rw [set_volume_eq]
    norm_num [snapclient_get_volume]

/-- C9: shared pause flag.  pause and resume on any non-null handle write
the single process-wide flag, and is_paused reads exactly that flag for
every handle argument. -/
theorem C9_shared_pause_flag (x y : BridgeClient) (a b : Option BridgeClient)
    (w w2 : BridgeWorld) :
    snapclient_is_paused a (snapclient_pause (some x) w) = true ∧
    snapclient_is_paused a (snapclient_resume (some y) w2) = false ∧
    snapclient_is_paused a w = snapclient_is_paused b w ∧
    snapclient_pause (some x) w = { g_ios_player_paused := true } ∧
    snapclient_resume (some y) w = { g_ios_player_paused := false } :=
  ⟨rfl, rfl, rfl, rfl, rfl⟩

/-- C10: null-handle totality.  Every bridge operation on a NULL handle is
total: setters, stop, pause, resume, begin_destroy and destroy are no-ops,
and getters return the fixed defaults. -/
theorem C10_null_handle_totality :
    (∀ p, snapclient_set_volume none p = none) ∧
    snapclient_get_volume none = 0 ∧
    (∀ m, snapclient_set_muted none m = none) ∧
    snapclient_get_muted none = false ∧
    (∀ l, snapclient_set_latency none l = none) ∧
    snapclient_get_latency none = 0 ∧
    (∀ n, snapclient_set_name none n = none) ∧
    (∀ i, snapclient_set_instance none i = none) ∧
    snapclient_get_state none = SnapClientState.disconnected ∧
    snapclient_is_connected none = false ∧
    (∀ h p ok, snapclient_start none h p ok = ⟨none, [], false⟩) ∧
    (∀ tn, snapclient_stop none tn = (none, [])) ∧
    (∀ w, snapclient_pause none w = w) ∧
    (∀ w, snapclient_resume none w = w) ∧
    snapclient_begin_destroy none = none ∧
    (∀ tn, snapclient_destroy none tn = (none, [])) ∧
    (∀ cb, snapclient_set_state_callback none cb = none) :=
  ⟨fun _ => rfl, rfl, fun _ => rfl, rfl, fun _ => rfl, rfl, fun _ => rfl,
   fun _ => rfl, rfl, rfl, fun _ _ _ => rfl, fun _ => rfl, fun _ => rfl,
   fun _ => rfl, rfl, fun _ => rfl, fun _ => rfl⟩

/- ── C8: stop idempotence ──────────────────────────────────────────── -/

/-- The client after a stop that actually tore the connection down. -/
def stoppedClient (c : BridgeClient) : BridgeClient :=
  { c with state := SnapClientState.disconnected, work_guard := false,
           io_thread := false, controller := false, io_context := false }

/-- The client component of notify_state is the client with the new state,
whatever the guard and callback registration decide about delivery. -/
lemma notify_state_fst (c : BridgeClient) (ns : SnapClientState) :
    (notify_state c ns).1 = { c with state := ns } := by
  simp only [notify_state]
  split_ifs <;> rfl

/-- snapclient_stop on a not-yet-disconnected client yields the stopped
client, whichever way the io thread join interleaves. -/
lemma snapclient_stop_fst (c : BridgeClient) (tn : Bool)
    (hd : c.state ≠ SnapClientState.disconnected) :
    (snapclient_stop (some c) tn).1 = some (stoppedClient c) := by
  simp only [snapclient_stop, if_neg hd]
  split_ifs with hio
  · rw [notify_state_fst, notify_state_fst]
    rfl
  · rw [notify_state_fst]
    rfl

/-- The client delivered by a C8 pipeline: start succeeds, then the io
thread exits on its own (network drop) and notifies Disconnected. -/
def startedClient : BridgeClient :=
  ((snapclient_start (some createdClient) (some "192.168.1.20") 1704
      true).client).getD createdClient

/-- A disconnected client that still owns its controller and io_context,
reached by a successful start followed by the io thread exiting on a
network drop. -/
def staleDisconnectedClient : BridgeClient := (ioThreadExit startedClient).1

/-- C8 counterexample: snapclient_stop on an already-Disconnected client is
an immediate no-op, so on a client disconnected by the io thread's exit hook
it releases neither controller nor io_context, contradicting the claim that
both stop calls leave controller and io_context released. -/
theorem C8_counterexample :
    staleDisconnectedClient.state = SnapClientState.disconnected ∧
    staleDisconnectedClient.controller = true ∧
    staleDisconnectedClient.io_context = true ∧
    snapclient_stop (some staleDisconnectedClient) true
      = (some staleDisconnectedClient, []) ∧
    snapclient_stop (some staleDisconnectedClient) false
      = (some staleDisconnectedClient, []) := by
  refine ⟨rfl, rfl, rfl, ?_, ?_⟩ <;> rfl

/-- C8 (amended): snapclient_stop on a client already Disconnected is a
no-op (no field changes, no callback fires); stop followed by stop equals a
single stop, with both calls leaving the client Disconnected; and when the
client was not already Disconnected the stop releases controller,
io_context, work guard and io thread. -/
theorem C8_stop_idempotent (c : BridgeClient) (tn tn2 : Bool) :
    (c.state = SnapClientState.disconnected →
      snapclient_stop (some c) tn = (some c, [])) ∧
    (∃ c1, (snapclient_stop (some c) tn).1 = some c1 ∧
      c1.state = SnapClientState.disconnected ∧
      snapclient_stop (some c1) tn2 = (some c1, []) ∧
      (c.state ≠ SnapClientState.disconnected →
        c1.controller = false ∧ c1.io_context = false ∧
        c1.work_guard = false ∧ c1.io_thread = false)) := by
  by_cases hd : c.state = SnapClientState.disconnected
  · refine ⟨fun _ => by simp [snapclient_stop, hd], ⟨c, ?_, hd, ?_, ?_⟩⟩
    · simp [snapclient_stop, hd]
    · simp [snapclient_stop, hd]
    · intro hne
      exact absurd hd hne
  · refine ⟨fun hcd => absurd hcd hd, ⟨stoppedClient c, ?_, rfl, ?_, ?_⟩⟩
    · exact snapclient_stop_fst c tn hd
    · simp [snapclient_stop, stoppedClient]
    · intro _
      exact ⟨rfl, rfl, rfl, rfl⟩

/-- Witness for C8 (amended) at a connected client. -/
theorem C8_stop_idempotent_witness :
    snapclient_stop (some createdClient) true = (some createdClient, []) ∧
    (∃ c1, (snapclient_stop (some connectedClient) false).1 = some c1 ∧
      c1.state = SnapClientState.disconnected ∧
      snapclient_stop (some c1) true = (some c1, []) ∧
      (connectedClient.state ≠ SnapClientState.disconnected →
        c1.controller = false ∧ c1.io_context = false ∧
        c1.work_guard = false ∧ c1.io_thread = false)) :=
  ⟨(C8_stop_idempotent createdClient true true).1 rfl,
   (C8_stop_idempotent connectedClient false true).2⟩

/- ── C3, C4, C6: render callback ───────────────────────────────────── -/

/-- A player with a live session, paused, whose session generation has been
bumped past the snapshot an in-flight callback took. -/
def stalePausedPlayer : IOSPlayerState where
  g_paused := true
  shutdownRequested := false
  callbackGeneration := 1
  queue := true
  timeLine := true
  frames := 4800
  ms := 100
  rate := 48000
  lastChunkTick := 0
  needsReinit := false
  workerRunLoop := true

/-- C3 counterexample: a paused callback invocation whose snapshotted
generation (0) no longer equals the live generation (1) still re-submits its
buffer — the paused fast path enqueues before the generation check runs. -/
theorem C3_counterexample :
    (0 ≠ stalePausedPlayer.callbackGeneration) ∧
    (playerCallback stalePausedPlayer 0 0 false 0).2.enqueued = true := by
  exact ⟨by decide, by decide⟩

/-- C3 (amended): cleanupAudioQueue increments callbackGeneration before
disposing, and disposes queue and timeline when a queue exists; and every
non-paused callback invocation whose snapshotted generation no longer equals
the live generation re-submits no buffer, computes no delay, adjusts no
volume, and leaves every session-owned field (queue, timeline, generation,
frames, ms) and the chunk clock untouched. -/
theorem C3_generation_staleness (s : IOSPlayerState)
    (myGen sampleTime : Nat) (pull : Bool) (now : Nat)
    (hp : s.g_paused = false) (hg : myGen ≠ s.callbackGeneration) :
    (playerCallback s myGen sampleTime pull now).2.enqueued = false ∧
    (playerCallback s myGen sampleTime pull now).2.delayMs = none ∧
    (playerCallback s myGen sampleTime pull now).2.volumeAdjusted = false ∧
    (playerCallback s myGen sampleTime pull now).1.queue = s.queue ∧
    (playerCallback s myGen sampleTime pull now).1.timeLine = s.timeLine ∧
    (playerCallback s myGen sampleTime pull now).1.callbackGeneration
        = s.callbackGeneration ∧
    (playerCallback s myGen sampleTime pull now).1.frames = s.frames ∧
    (playerCallback s myGen sampleTime pull now).1.ms = s.ms ∧
    (playerCallback s myGen sampleTime pull now).1.lastChunkTick
        = s.lastChunkTick ∧
    (∀ s2 : IOSPlayerState,
      (cleanupAudioQueue s2).callbackGeneration
          = s2.callbackGeneration + 1 ∧
      (s2.queue = true → (cleanupAudioQueue s2).queue = false ∧
        (cleanupAudioQueue s2).timeLine = false)) := by
  have hres : playerCallback s myGen sampleTime pull now =
      if s.shutdownRequested = true then
        ({ s with needsReinit := true },
         { enqueued := false, silence := false,
           wokeRunLoop := s.workerRunLoop, delayMs := none,
           volumeAdjusted := false })
      else (s, noEffect) := by
    simp only [playerCallback, hp]
    by_cases hs : s.shutdownRequested = true <;> simp [hs, hg]
  rw [hres]
  have hclean : ∀ s2 : IOSPlayerState,
      (cleanupAudioQueue s2).callbackGeneration
          = s2.callbackGeneration + 1 ∧
      (s2.queue = true → (cleanupAudioQueue s2).queue = false ∧
        (cleanupAudioQueue s2).timeLine = false) := by
    intro s2
    constructor
    · simp only [cleanupAudioQueue]
      split_ifs <;> rfl
    · intro hq
      simp [cleanupAudioQueue, hq]
  by_cases hs : s.shutdownRequested = true
  · rw [if_pos hs]
    exact ⟨rfl, rfl, rfl, rfl, rfl, rfl, rfl, rfl, rfl, hclean⟩
  · rw [if_neg hs]
    exact ⟨rfl, rfl, rfl, rfl, rfl, rfl, rfl, rfl, rfl, hclean⟩

/-- Witness for C3 (amended): a delayed non-paused invocation against a
superseded generation. -/
theorem C3_generation_staleness_witness :
    (playerCallback { stalePausedPlayer with g_paused := false }
        0 0 false 0).2.enqueued = false :=
  (C3_generation_staleness { stalePausedPlayer with g_paused := false }
    0 0 false 0 rfl (by decide)).1

/-- The playout-delay formula exactly as the claim states it: the
frames-remaining term comes from the playback-position query when a timeline
is available and otherwise defaults to bufferDurationMs times (N - 1). -/
def specDelayMs (timeline : Bool) (frames ms rate sampleTime : Nat) : Nat :=
  (if timeline then (frames - sampleTime % frames) % frames
   else ms * (NUM_BUFFERS - 1)) * 1000 / rate
    + ms * (NUM_BUFFERS - 1) + 15

/-- A playing session at 48 kHz with 100 ms buffers and no timeline. -/
def noTimelinePlayer : IOSPlayerState where
  g_paused := false
  shutdownRequested := false
  callbackGeneration := 5
  queue := true
  timeLine := false
  frames := 4800
  ms := 100
  rate := 48000
  lastChunkTick := 0
  needsReinit := false
  workerRunLoop := true

/-- C4 counterexample: with no timeline at 48 kHz the code computes a 315 ms
delay (frames term absent), while the claimed formula with the frames term
defaulting to bufferDurationMs times (N - 1) yields 321 ms. -/
theorem C4_counterexample :
    (playerCallback noTimelinePlayer 5 0 true 0).2.delayMs = some 315 ∧
    specDelayMs false 4800 100 48000 0 = 321 ∧ (315 : Nat) ≠ 321 := by
  exact ⟨by decide, by decide, by decide⟩

/-- C4 (amended): on every non-paused, non-shutdown, generation-valid
invocation the computed delay equals framesRemaining × 1000 / sampleRate +
bufferDurationMs × (N−1) + 15, where framesRemaining comes from the
playback-position query when a timeline is available and is zero otherwise
(so without a timeline the delay defaults to bufferDurationMs × (N−1) plus
the fixed hardware delay). -/
theorem C4_playout_delay (s : IOSPlayerState) (myGen sampleTime : Nat)
    (pull : Bool) (now : Nat) (hp : s.g_paused = false)
    (hs : s.shutdownRequested = false) (hg : myGen = s.callbackGeneration) :
    (playerCallback s myGen sampleTime pull now).2.delayMs =
      some ((if s.timeLine then (s.frames - sampleTime % s.frames) % s.frames
             else 0) * 1000 / s.rate
            + s.ms * (NUM_BUFFERS - 1) + 15) := by
  simp only [playerCallback, hp, hs, hg]
  by_cases ht : s.timeLine = true <;> by_cases hq : pull = true <;>
    simp [ht, hq] <;> split_ifs <;> simp [Nat.add_assoc]

/-- Witness for C4 (amended) at a timeline-equipped session. -/
theorem C4_playout_delay_witness :
    (playerCallback { noTimelinePlayer with timeLine := true }
        5 1200 true 0).2.delayMs = some 390 := by
  have h := C4_playout_delay { noTimelinePlayer with timeLine := true }
    5 1200 true 0 rfl rfl rfl
  rw [h]
  decide

/-- C6: stall reinit.  On a generation-valid, non-paused, non-shutdown
invocation whose pull yielded no real data: if more than 5000 ms have passed
since the last successful pull the callback sets needsReinit, wakes the
worker's event loop and does not re-submit; within the threshold it leaves
the player state (needsReinit included) unchanged and re-submits the
(silence-filled) buffer. -/
theorem C6_stall_reinit (s : IOSPlayerState) (myGen sampleTime now : Nat)
    (hp : s.g_paused = false) (hs : s.shutdownRequested = false)
    (hg : myGen = s.callbackGeneration) (hrl : s.workerRunLoop = true) :
    (now - s.lastChunkTick > 5000 →
      (playerCallback s myGen sampleTime false now).1.needsReinit = true ∧
      (playerCallback s myGen sampleTime false now).2.enqueued = false ∧
      (playerCallback s myGen sampleTime false now).2.wokeRunLoop = true) ∧
    (now - s.lastChunkTick ≤ 5000 →
      (playerCallback s myGen sampleTime false now).1 = s ∧
      (playerCallback s myGen sampleTime false now).2.enqueued = true ∧
      (playerCallback s myGen sampleTime false now).2.silence = true) := by
  constructor
  · intro hstall
    simp [playerCallback, hp, hs, hg, hstall, hrl]
  · intro hok
    have hnot : ¬(now - s.lastChunkTick > 5000) := by omega
    simp [playerCallback, hp, hs, hg, hnot]

/-- Witness for C6: a 6-second gap triggers reinit; a 1-second gap does
not. -/
theorem C6_stall_reinit_witness :
    ((playerCallback noTimelinePlayer 5 0 false 6000).1.needsReinit = true ∧
      (playerCallback noTimelinePlayer 5 0 false 6000).2.enqueued = false ∧
      (playerCallback noTimelinePlayer 5 0 false 6000).2.wokeRunLoop
        = true) ∧
    ((playerCallback noTimelinePlayer 5 0 false 1000).1 = noTimelinePlayer ∧
      (playerCallback noTimelinePlayer 5 0 false 1000).2.enqueued = true ∧
      (playerCallback noTimelinePlayer 5 0 false 1000).2.silence = true) :=
  ⟨(C6_stall_reinit noTimelinePlayer 5 0 6000 rfl rfl rfl rfl).1 (by decide),
   (C6_stall_reinit noTimelinePlayer 5 0 1000 rfl rfl rfl rfl).2 (by decide)⟩
